import Mathlib

/-!
Shallow embedding of the influx-proxy write-and-replication pipeline.

The definitions below are translated from the Go source:
* `backend` write engine (`WriteBuffer`, `FlushBuffer`, `Flush`, `worker`,
  `RewriteLoop`, `Rewrite`, `WritePoint`, `Close`) from the unnamed backend file;
* `Proxy` (`IsForbiddenDB`, `GetKey`, `Write`, `WriteRow`) and the HTTP service
  handlers (`HandlerWrite`, `HandlerRebalance`, `HandlerRecovery`,
  `HandlerResync`, `HandlerCleanup`, `setWorker`, `setBatch`, `setLimit`)
  from `backend/proxy.go` and its appended service code;
* the alternative service handlers from `service/http.go`.

Bytes are modelled as `List Nat` (byte values); strings of the HTTP surface as
Lean `String`.
-/

namespace InfluxProxy

/-- Classification of an `HttpClient.WriteCompressed` outcome, the closed set
of results distinguished by the `switch err` statements of the source:
`nil`, `ErrBadRequest`, `ErrNotFound`, any other error (transient). -/
inductive WriteResult
  | ok
  | badRequest
  | notFound
  | transient
  deriving DecidableEq, Repr

/-- Byte-level model of Go's `url.QueryEscape` unreserved test: alphanumerics
and `-`, `_`, `.`, `~` are left unescaped in query components. -/
def isUnreservedByte (c : Nat) : Bool :=
  (65 ≤ c && c ≤ 90) || (97 ≤ c && c ≤ 122) || (48 ≤ c && c ≤ 57) ||
  c = 45 || c = 95 || c = 46 || c = 126

/-- Uppercase hex digit of a value below 16, as in Go's `net/url` escaping. -/
def upperHexDigit (n : Nat) : Nat :=
  if n < 10 then 48 + n else 55 + n

/-- Byte-level model of Go's `url.QueryEscape`: spaces become `+`, unreserved
bytes pass through, everything else becomes `%XX` with uppercase hex. -/
def QueryEscape : List Nat → List Nat
  | [] => []
  | c :: rest =>
    (if isUnreservedByte c then [c]
     else if c = 32 then [43]
     else [37, upperHexDigit (c / 16 % 16), upperHexDigit (c % 16)]) ++ QueryEscape rest

/-- Hex digit value accepted by Go's `url` unescaping (`0-9`, `A-F`, `a-f`). -/
def unhexByte (c : Nat) : Option Nat :=
  if 48 ≤ c && c ≤ 57 then some (c - 48)
  else if 65 ≤ c && c ≤ 70 then some (c - 55)
  else if 97 ≤ c && c ≤ 102 then some (c - 87)
  else none

/-- Byte-level model of Go's `url.QueryUnescape`: `%XX` decodes, `+` becomes a
space, a malformed `%` escape is an error. -/
def QueryUnescape : List Nat → Option (List Nat)
  | [] => some []
  | 37 :: a :: b :: rest =>
    match unhexByte a, unhexByte b, QueryUnescape rest with
    | some ha, some hb, some tl => some ((ha * 16 + hb) :: tl)
    | _, _, _ => none
  | 37 :: _ :: [] => none
  | 37 :: [] => none
  | 43 :: rest => (QueryUnescape rest).map (32 :: ·)
  | c :: rest => (QueryUnescape rest).map (c :: ·)

/-- The record written to the FileQueue by `FlushBuffer`'s pool task and read
back by `Rewrite`: `bytes.Join([][]byte{url.QueryEscape(db), p}, []byte{' '})`. -/
def fileQueueRecord (db p : List Nat) : List Nat :=
  QueryEscape db ++ [32] ++ p

/-- Outcome of one `FlushBuffer` pool task: whether `WriteCompressed` was
called, and the record written to the FileQueue, if any. -/
structure FlushOutcome where
  httpCalled : Bool
  queued : Option (List Nat)
  deriving DecidableEq, Repr

/-- The pool task submitted by `FlushBuffer` (source lines 147-180), after the
payload has been compressed to `p`: if `Active`, call `WriteCompressed` and
terminate on `nil`/`ErrBadRequest`/`ErrNotFound`; otherwise (transient error,
or inactive backend) write `QueryEscape(db) ++ " " ++ p` to the FileQueue. -/
def flushTask (active : Bool) (res : WriteResult) (db p : List Nat) : FlushOutcome :=
  if active then
    match res with
    | .ok => { httpCalled := true, queued := none }
    | .badRequest => { httpCalled := true, queued := none }
    | .notFound => { httpCalled := true, queued := none }
    | .transient => { httpCalled := true, queued := some (fileQueueRecord db p) }
  else { httpCalled := false, queued := some (fileQueueRecord db p) }

/-- Model of `Proxy.IsForbiddenDB` from `backend/proxy.go`:
`db == "_internal" || (len(ip.dbSet) > 0 && !ip.dbSet[db])`. -/
def IsForbiddenDB (dbSet : List String) (db : String) : Bool :=
  db = "_internal" || (!dbSet.isEmpty && !dbSet.contains db)

/-- Model of `CacheBuffer`: the per-database buffer of a `Backend`. `buffer = none`
models a nil `*bytes.Buffer` (the detached state after a flush). -/
structure CacheBuffer where
  buffer : Option (List Nat)
  counter : Nat
  deriving DecidableEq, Repr

/-- Lookup in the Go map `buffers map[string]*CacheBuffer`. -/
def getBuf (bs : List (String × CacheBuffer)) (db : String) : Option CacheBuffer :=
  (bs.find? (fun e => e.1 = db)).map (·.2)

/-- Update/insert in the Go map `buffers map[string]*CacheBuffer`. Go map
iteration order is unspecified, so re-inserting the updated entry at the head
is a faithful model. -/
def setBuf (bs : List (String × CacheBuffer)) (db : String) (cb : CacheBuffer) :
    List (String × CacheBuffer) :=
  (db, cb) :: bs.filter (fun e => e.1 ≠ db)

/-- Core of `FlushBuffer(db)` on one `CacheBuffer` (source lines 134-144): a
nil buffer returns unchanged; otherwise the bytes are taken, the buffer is
detached and the counter reset; an empty payload submits no pool task, a
non-empty one is handed to the pool. Returns the updated buffer and the
payload submitted to the pool task, if any. -/
def FlushBuffer (cb : CacheBuffer) : CacheBuffer × Option (List Nat) :=
  match cb.buffer with
  | none => (cb, none)
  | some p => (⟨none, 0⟩, if p.isEmpty then none else some p)

/-- Per-database state touched by `WriteBuffer`: the buffer map and whether a
flush timer is armed (`chTimer != nil`). -/
structure BufState where
  buffers : List (String × CacheBuffer)
  timerArmed : Bool
  deriving DecidableEq, Repr

/-- Model of `WriteBuffer(point)` (source lines 93-132): fetch or create the
database's `CacheBuffer`, bump `Counter`, append the line and a trailing
newline when the line lacks one, then flush when `Counter >= flushSize`, else
arm the flush timer when none is armed. Returns `none` on the panic of
`line[len(line)-1]` for an empty line; otherwise the new state and the payload
submitted to the pool by `FlushBuffer`, if the flush branch was taken. -/
def WriteBuffer (flushSize : Nat) (s : BufState) (db : String) (line : List Nat) :
    Option (BufState × Option (List Nat)) :=
  let cb := (getBuf s.buffers db).getD ⟨some [], 0⟩
  let counter := cb.counter + 1
  let content := cb.buffer.getD [] ++ line
  match line.getLast? with
  | none => none
  | some c =>
    let content := if c = 10 then content else content ++ [10]
    let cb := (⟨some content, counter⟩ : CacheBuffer)
    if counter ≥ flushSize then
      let (cb, task) := FlushBuffer cb
      some ({ s with buffers := setBuf s.buffers db cb }, task)
    else if !s.timerArmed then
      some ({ buffers := setBuf s.buffers db cb, timerArmed := true }, none)
    else
      some ({ s with buffers := setBuf s.buffers db cb }, none)

/-- Runtime state of a `Backend` relevant to the worker's shutdown path:
buffers, the flush timer, the wait-group counter of in-flight pool tasks, the
tasks submitted but not yet completed, and the two closable resources. -/
structure WorkerState where
  buffers : List (String × CacheBuffer)
  timerArmed : Bool
  inflight : Nat
  pendingTasks : List (String × List Nat)
  httpOpen : Bool
  fileOpen : Bool
  deriving DecidableEq, Repr

/-- One entry of `Flush`'s range loop: buffers with `Counter > 0` are flushed
through `FlushBuffer`; others are left untouched. -/
def flushEntry (e : String × CacheBuffer) :
    (String × CacheBuffer) × Option (String × List Nat) :=
  if 0 < e.2.counter then
    let (cb, task) := FlushBuffer e.2
    ((e.1, cb), task.map (fun p => (e.1, p)))
  else (e, none)

/-- Model of `Flush()` (source lines 184-194): disarm the timer (`chTimer = nil`) and
flush every database whose buffer holds at least one line; each submitted pool
task bumps the wait-group. -/
def Flush (s : WorkerState) : WorkerState :=
  let results := s.buffers.map flushEntry
  let tasks := results.filterMap (·.2)
  { s with
    buffers := results.map (·.1)
    timerArmed := false
    inflight := s.inflight + tasks.length
    pendingTasks := s.pendingTasks ++ tasks }

/-- Actions performed by the worker's channel-closed branch, in order. -/
inductive WAction
  | submitFlush (db : String) (payload : List Nat)
  | waitPool
  | closeHttp
  | closeFile
  deriving DecidableEq, Repr

/-- The worker's channel-closed branch (source lines 68-75): `Flush()`, then
`wg.Wait()` (which returns once every in-flight pool task has completed), then
`HttpBackend.Close()` and `fb.Close()`. Returns the trace of actions and the
final state. -/
def workerClosed (s : WorkerState) : List WAction × WorkerState :=
  let s1 := Flush s
  let submits := (s.buffers.map flushEntry).filterMap (·.2)
  let s2 := { s1 with inflight := 0, pendingTasks := [] }
  let s3 := { s2 with httpOpen := false, fileOpen := false }
  (submits.map (fun t => WAction.submitFlush t.1 t.2) ++
    [WAction.waitPool, WAction.closeHttp, WAction.closeFile], s3)

/-- Result of `fb.Read()` as seen by `Rewrite`: an error, no data (`nil`
bytes), or a record. -/
inductive ReadResult
  | readErr
  | empty
  | record (b : List Nat)
  deriving DecidableEq, Repr

/-- Model of `bytes.SplitN(b, []byte{' '}, 2)` viewed through `Rewrite`'s use:
`none` when the record holds no space (`len(p) < 2`), otherwise the part
before the first space and the rest. -/
def splitFirstSpace : List Nat → Option (List Nat × List Nat)
  | [] => none
  | c :: rest =>
    if c = 32 then some ([], rest)
    else (splitFirstSpace rest).map (fun q => (c :: q.1, q.2))

/-- FileQueue and HTTP calls performed by one `Rewrite`. -/
inductive RAction
  | writeCompressed (db p : List Nat)
  | updateMeta
  | rollbackMeta
  deriving DecidableEq, Repr

/-- Model of `Rewrite()` (source lines 218-263) as a function of the read record and
the oracle results of `WriteCompressed`, `RollbackMeta` and `UpdateMeta`:
returns the actions performed and whether the returned `err` is non-nil.
On `nil`/`ErrBadRequest`/`ErrNotFound` the record is dropped via `UpdateMeta`
and the returned error is `UpdateMeta`'s; on any other error (`Transient`)
`RollbackMeta` runs and the returned error is `RollbackMeta`'s. -/
def Rewrite (read : ReadResult) (wres : WriteResult) (rollbackOk updateOk : Bool) :
    List RAction × Bool :=
  match read with
  | .readErr => ([], true)
  | .empty => ([], false)
  | .record b =>
    match splitFirstSpace b with
    | none => ([], false)
    | some (p0, p1) =>
      match QueryUnescape p0 with
      | none => ([], true)
      | some db =>
        match wres with
        | .transient => ([.writeCompressed db p1, .rollbackMeta], !rollbackOk)
        | _ => ([.writeCompressed db p1, .updateMeta], !updateOk)

/-- What one iteration of `RewriteLoop` does next. -/
inductive LoopStep
  | exitLoop
  | sleepContinue (acts : List RAction)
  | continueNoSleep (acts : List RAction)
  deriving DecidableEq, Repr

/-- One iteration of `RewriteLoop()` (source lines 203-216): exit when the
FileQueue has no data (setting `rewriteRunning = false`); sleep and continue
when `Active` is false; otherwise run `Rewrite` and sleep exactly when it
returned a non-nil error. -/
def RewriteLoopStep (hasData active : Bool) (read : ReadResult) (wres : WriteResult)
    (rollbackOk updateOk : Bool) : LoopStep :=
  if !hasData then .exitLoop
  else if !active then .sleepContinue []
  else
    let (acts, e) := Rewrite read wres rollbackOk updateOk
    if e then .sleepContinue acts else .continueNoSleep acts

/-- Fuelled run of `RewriteLoop` over a FileQueue modelled as the list of
pending records (`Read` returns the head, `UpdateMeta` pops it, `RollbackMeta`
leaves it). Returns the remaining queue and the value of `rewriteRunning`
after the run (`false` exactly when the loop exited). -/
def RewriteLoopRun (active : Bool) (wres : List Nat → WriteResult) :
    Nat → List (List Nat) → List (List Nat) × Bool
  | 0, q => (q, true)
  | _ + 1, [] => ([], false)
  | fuel + 1, r :: rest =>
    if !active then RewriteLoopRun active wres fuel (r :: rest)
    else
      match splitFirstSpace r with
      | none => RewriteLoopRun active wres fuel (r :: rest)
      | some _ =>
        match wres r with
        | .transient => RewriteLoopRun active wres fuel (r :: rest)
        | _ => RewriteLoopRun active wres fuel rest

/-- A `LinePoint`: one line-protocol record with its database and retention
policy. -/
structure LinePoint where
  db : String
  rp : String
  line : String
  deriving DecidableEq, Repr

/-- Model of `WritePoint(point)` (source lines 88-91): enqueue on the write channel and
return the zero-valued error. The channel is modelled as the list of queued
points; the returned error is always `none`. -/
def WritePoint (ch : List LinePoint) (point : LinePoint) :
    List LinePoint × Option String :=
  (ch ++ [point], none)

/-- The fan-out loop at the end of `Proxy.WriteRow` (proxy.go lines 230-235):
write the point to every backend's channel and log each non-nil error that
`WritePoint` returns. Returns the updated channels and the logged errors. -/
def writeRowFanOut (chans : List (List LinePoint)) (point : LinePoint) :
    List (List LinePoint) × List String :=
  (chans.map (fun ch => (WritePoint ch point).1),
   chans.filterMap (fun ch => (WritePoint ch point).2))

/-- ASCII whitespace as recognized by Go's `unicode.IsSpace` /
`bytes.TrimSpace` on ASCII input. -/
def isSpaceChar (c : Char) : Bool :=
  c = ' ' || c = '\t' || c = '\n' || c = '\r' || c = '\x0b' || c = '\x0c'

/-- Split a character list at every character satisfying `p`, keeping empty
chunks, as Go's `bytes.Split` does. -/
def splitListBy (p : Char → Bool) : List Char → List (List Char)
  | [] => [[]]
  | c :: rest =>
    if p c then [] :: splitListBy p rest
    else
      match splitListBy p rest with
      | [] => [[c]]
      | g :: gs => (c :: g) :: gs

/-- Split a string on newline characters, the chunks produced by the
`ReadBytes('\n')` loop of `Proxy.Write` (each chunk stripped of its
delimiter). -/
def splitLines (s : String) : List String :=
  (splitListBy (fun c => c = '\n') s.toList).map (fun l => ⟨l⟩)

/-- Go's `strings.TrimSpace` / `bytes.TrimSpace` on ASCII input. -/
def trimSpace (s : String) : String :=
  ⟨((s.toList.dropWhile isSpaceChar).reverse.dropWhile isSpaceChar).reverse⟩

/-- Whether a token parses as a (signed) integer, the shape accepted for a
line-protocol trailing timestamp. -/
def isIntToken (s : String) : Bool :=
  match s.toList with
  | [] => false
  | '-' :: rest => !rest.isEmpty && rest.all Char.isDigit
  | l => l.all Char.isDigit

/-- Whether the final whitespace-separated token of a line parses as an
integer, i.e. the line already carries a timestamp. -/
def hasTimestamp (line : String) : Bool :=
  match ((splitListBy isSpaceChar line.toList).filter
      (fun t => !t.isEmpty)).getLast? with
  | none => false
  | some t => isIntToken ⟨t⟩

/-- Modelled from the spec: `AppendNano(line, precision)` is not under `src/`;
per the spec, "if the final whitespace-separated token does not parse as an
integer, a nanosecond timestamp derived from current wall clock adjusted for
declared precision is appended". `ts` is that precision-normalized nanosecond
wall-clock timestamp, supplied as a parameter. -/
def AppendNano (ts : String) (line : String) : String :=
  if hasTimestamp line then line else line ++ " " ++ ts

/-- Model of `GetKey(db, meas)` from `backend/proxy.go`: `db + "," + meas`. -/
def GetKey (db meas : String) : String :=
  db ++ "," ++ meas

/-- Model of `Proxy.WriteRow` (proxy.go lines 210-236), parametrized over the helpers
that live outside `src/`: `scanKey` (measurement extraction, `none` models a
scan error), `rapidCheck` (cheap line-protocol validation of the bytes after
the measurement), and one ring-lookup function per circle
(`circle.GetBackend`, returning a backend identifier). Returns the
`(backend, point)` writes performed; a failing line yields no writes. -/
def WriteRow (scanKey : String → Option String) (rapidCheck : String → Bool)
    (circles : List (String → Nat)) (ts : String) (line db rp : String) :
    List (Nat × LinePoint) :=
  let nanoLine := AppendNano ts line
  match scanKey nanoLine with
  | none => []
  | some meas =>
    if !rapidCheck (nanoLine.drop meas.length) then []
    else circles.map (fun ring => (ring (GetKey db meas), ⟨db, rp, nanoLine⟩))

/-- Model of `Proxy.Write` (proxy.go lines 186-208): read the payload line by line
(`ReadBytes('\n')` over an in-memory buffer yields only `nil`/`io.EOF`,
so the loop never returns an error), trim each line, skip empty lines, and
hand each remaining line to `WriteRow`. Returns the writes performed and the
returned error (always `none` for an in-memory payload). -/
def ProxyWrite (scanKey : String → Option String) (rapidCheck : String → Bool)
    (circles : List (String → Nat)) (ts : String) (payload db rp : String) :
    List (Nat × LinePoint) × Option String :=
  (((((splitLines payload).map trimSpace).filter (fun l => !l.isEmpty)).map
      (fun line => WriteRow scanKey rapidCheck circles ts line db rp)).flatten,
   none)

/-- Go's `strconv.Atoi`: optional sign followed by at least one digit. -/
def atoi (s : String) : Option Int :=
  match s.toList with
  | [] => none
  | '+' :: rest =>
    if !rest.isEmpty && rest.all Char.isDigit then
      some (rest.foldl (fun a c => a * 10 + ((c.toNat : Int) - 48)) 0)
    else none
  | '-' :: rest =>
    if !rest.isEmpty && rest.all Char.isDigit then
      some (-(rest.foldl (fun a c => a * 10 + ((c.toNat : Int) - 48)) 0))
    else none
  | l =>
    if l.all Char.isDigit then
      some (l.foldl (fun a c => a * 10 + ((c.toNat : Int) - 48)) 0)
    else none

/-- Model of `setWorker` (proxy.go lines 1047-1059): an absent field uses the default;
a present field must parse as a positive integer, else `ErrInvalidWorker`
(modelled as `none`). -/
def setWorker (dflt : Int) (field : String) : Option Int :=
  let str := trimSpace field
  if str = "" then some dflt
  else
    match atoi str with
    | none => none
    | some v => if v ≤ 0 then none else some v

/-- Model of `setBatch` (proxy.go lines 1061-1073): same shape as `setWorker`, with
`ErrInvalidBatch` on a non-positive or unparsable value. -/
def setBatch (dflt : Int) (field : String) : Option Int :=
  let str := trimSpace field
  if str = "" then some dflt
  else
    match atoi str with
    | none => none
    | some v => if v ≤ 0 then none else some v

/-- Model of `setLimit` (proxy.go lines 1075-1087): an absent field uses
`DefaultLimit`; a present field must parse as a positive integer, else
`ErrInvalidLimit` (modelled as `none`). -/
def setLimit (dflt : Int) (field : String) : Option Int :=
  let str := trimSpace field
  if str = "" then some dflt
  else
    match atoi str with
    | none => none
    | some v => if v ≤ 0 then none else some v

/-- Model of `setHaAddrs` (proxy.go lines 1089-1103): two or more comma-separated
addresses must each match the address pattern (`validAddr` parametrizes the
regexp); exactly one address is `ErrInvalidHaAddrs`; none leaves the peer
list unset. -/
def setHaAddrs (validAddr : String → Bool) (haAddrs : List String) :
    Option (List String) :=
  if 1 < haAddrs.length then
    if haAddrs.all validAddr then some haAddrs else none
  else if haAddrs.length = 1 then none
  else some []

/-- Model of `setParam` (proxy.go lines 1026-1045): `setWorker`, `setBatch`,
`setLimit`, `setHaAddrs` in order; admission requires all four to succeed. -/
def setParam (dW dB dL : Int) (validAddr : String → Bool)
    (workerF batchF limitF : String) (haAddrs : List String) : Bool :=
  (setWorker dW workerF).isSome && (setBatch dB batchF).isSome &&
  (setLimit dL limitF).isSome && (setHaAddrs validAddr haAddrs).isSome

/-- Model of `HandlerRebalance` (proxy.go service section, lines 533-585), after the
method and auth checks: parse `circle_id`, validate `operation`, decode the
body for `rm`, refuse while the circle is transferring or a resync is
running, validate parameters, then launch the background job with 202.
Returns `(status, launched)`. -/
def HandlerRebalance (transferring : List Bool) (resyncing : Bool)
    (circleIdOk : Bool) (circleId : Nat) (operation : String) (bodyOk : Bool)
    (paramOk : Bool) : Nat × Bool :=
  if !circleIdOk then (400, false)
  else if operation ≠ "add" && operation ≠ "rm" then (400, false)
  else if operation = "rm" && !bodyOk then (400, false)
  else if transferring.getD circleId false then (400, false)
  else if resyncing then (400, false)
  else if !paramOk then (400, false)
  else (202, true)

/-- Model of `HandlerRecovery` (proxy.go service section, lines 587-626): parse both
circle ids, require them distinct, refuse while either circle is transferring
or a resync is running, validate parameters, then launch with 202. -/
def HandlerRecovery (transferring : List Bool) (resyncing : Bool)
    (fromOk toOk : Bool) (fromId toId : Nat) (paramOk : Bool) : Nat × Bool :=
  if !fromOk then (400, false)
  else if !toOk then (400, false)
  else if fromId = toId then (400, false)
  else if transferring.getD fromId false || transferring.getD toId false then (400, false)
  else if resyncing then (400, false)
  else if !paramOk then (400, false)
  else (202, true)

/-- Model of `HandlerResync` (proxy.go service section, lines 628-659): parse `tick`,
refuse while any circle is transferring or a resync is already running,
validate parameters, then launch with 202. -/
def HandlerResync (transferring : List Bool) (resyncing : Bool)
    (tickOk : Bool) (paramOk : Bool) : Nat × Bool :=
  if !tickOk then (400, false)
  else if transferring.any (fun b => b) then (400, false)
  else if resyncing then (400, false)
  else if !paramOk then (400, false)
  else (202, true)

/-- Model of `HandlerCleanup` (proxy.go service section, lines 661-689): parse
`circle_id`, refuse while the circle is transferring or a resync is running,
validate parameters, then launch with 202. -/
def HandlerCleanup (transferring : List Bool) (resyncing : Bool)
    (circleIdOk : Bool) (circleId : Nat) (paramOk : Bool) : Nat × Bool :=
  if !circleIdOk then (400, false)
  else if transferring.getD circleId false then (400, false)
  else if resyncing then (400, false)
  else if !paramOk then (400, false)
  else (202, true)

/-- Model of `HandlerRebalance` with `paramOk` computed from the request fields by
`setParam`, the composition the admission path actually runs. -/
def RebalanceAdmit (transferring : List Bool) (resyncing : Bool)
    (circleIdOk : Bool) (circleId : Nat) (operation : String) (bodyOk : Bool)
    (dW dB dL : Int) (validAddr : String → Bool)
    (workerF batchF limitF : String) (haAddrs : List String) : Nat × Bool :=
  HandlerRebalance transferring resyncing circleIdOk circleId operation bodyOk
    (setParam dW dB dL validAddr workerF batchF limitF haAddrs)

/-- The precision values accepted by the `HandlerWrite` of the proxy.go
service section (lines 389-404): `"", n, ns, u, ms, s, m, h`. -/
def validPrecision (p : String) : Bool :=
  p = "" || p = "n" || p = "ns" || p = "u" || p = "ms" || p = "s" || p = "m" || p = "h"

/-- Model of `queryDB` (proxy.go service section, lines 977-991) viewed as its error
condition: an empty database name or a forbidden one is an error. -/
def queryDBErr (dbSet : List String) (db : String) : Bool :=
  db = "" || IsForbiddenDB dbSet db

/-- Model of `HandlerWrite` of the proxy.go service section (lines 389-436): method
and auth checks, precision validation (default `ns`), `queryDB` (which
consults `IsForbiddenDB`), gzip decoding, body read, then `Proxy.Write` and
204. `gzipOk` is true when the body is not gzip-encoded or decodes;
`bodyOk` when the body reads fully. Returns the response status. -/
def HandlerWriteProxy (methodPost authOk : Bool) (precision db : String)
    (dbSet : List String) (gzipOk bodyOk : Bool) : Nat :=
  if !methodPost then 405
  else if !authOk then 401
  else if !(validPrecision precision) then 400
  else if queryDBErr dbSet db then 400
  else if !gzipOk then 400
  else if !bodyOk then 400
  else 204

/-- Model of `HandlerWrite` of `service/http.go` (lines 149-212): method and auth
checks, precision defaulted to `ns` but never validated, empty-db check,
allow-list check (`len(DbList) > 0 && !MapHasKey(DbMap, db)`), gzip decoding
(whose error path writes a message without a status code, an implicit 200),
body read, then a 204 after fanning the lines out. -/
def HandlerWriteHttp (methodPost authOk : Bool) (precision db : String)
    (dbList : List String) (gzipHeader gzipOk bodyOk : Bool) : Nat :=
  if !methodPost then 405
  else if !authOk then 401
  else if db = "" then 400
  else if !dbList.isEmpty && !dbList.contains db then 400
  else if gzipHeader && !gzipOk then 200
  else if !bodyOk then 400
  else 204

/-! ## Theorems -/

/-- C1: for every flushed batch on a Backend, if `active` is true the task
calls `WriteCompressed` and on ok, BadRequest or NotFound the batch terminates
without queueing; on Transient the record `url-escape(db) + ' ' + compressed`
is written to the FileQueue; if `active` is false the HTTP call is bypassed
and the record is written directly to the FileQueue. -/
theorem c1_flushed_batch_routing (active : Bool) (res : WriteResult) (db p : List Nat) :
    (active = true →
      ((res = .ok ∨ res = .badRequest ∨ res = .notFound →
          flushTask active res db p = ⟨true, none⟩) ∧
        (res = .transient →
          flushTask active res db p = ⟨true, some (fileQueueRecord db p)⟩))) ∧
    (active = false →
      flushTask active res db p = ⟨false, some (fileQueueRecord db p)⟩) := by
  cases active <;> cases res <;> simp [flushTask]

/-- Witness for C1 at concrete inputs: a transient batch on an active backend
is queued, a batch on an inactive backend bypasses HTTP and is queued. -/
theorem c1_flushed_batch_routing_witness :
    flushTask true .transient [100, 98] [1, 2] =
      ⟨true, some (fileQueueRecord [100, 98] [1, 2])⟩ ∧
    flushTask false .ok [100] [3] = ⟨false, some (fileQueueRecord [100] [3])⟩ :=
  ⟨((c1_flushed_batch_routing true .transient [100, 98] [1, 2]).1 rfl).2 rfl,
   (c1_flushed_batch_routing false .ok [100] [3]).2 rfl⟩

/-- C10: `Backend.WritePoint` returns a nil error for every point (it only
enqueues to the channel), so the error-logging branch after `WritePoint` in
`Proxy.WriteRow` never logs anything. -/
theorem c10_write_point_nil_error (chans : List (List LinePoint))
    (ch : List LinePoint) (point : LinePoint) :
    (WritePoint ch point).2 = none ∧
    (WritePoint ch point).1 = ch ++ [point] ∧
    (writeRowFanOut chans point).2 = [] := by
  refine ⟨rfl, rfl, ?_⟩
  simp [writeRowFanOut, WritePoint]

/-- C4: while a circle's transferring flag is true, no rebalance, recovery or
cleanup on that circle launches its background job; while resyncing is true no
circle operator launches on any circle; a resync request is refused while any
circle is transferring or while resyncing is set. -/
theorem c4_operator_admission (transferring : List Bool) (resyncing : Bool)
    (cidOk : Bool) (cid : Nat) (op : String) (bodyOk paramOk : Bool)
    (fromOk toOk : Bool) (fromId toId : Nat) (tickOk : Bool) :
    (transferring.getD cid false = true →
      (HandlerRebalance transferring resyncing cidOk cid op bodyOk paramOk).2 = false ∧
      (HandlerCleanup transferring resyncing cidOk cid paramOk).2 = false) ∧
    (transferring.getD fromId false = true ∨ transferring.getD toId false = true →
      (HandlerRecovery transferring resyncing fromOk toOk fromId toId paramOk).2 = false) ∧
    (resyncing = true →
      (HandlerRebalance transferring resyncing cidOk cid op bodyOk paramOk).2 = false ∧
      (HandlerRecovery transferring resyncing fromOk toOk fromId toId paramOk).2 = false ∧
      (HandlerCleanup transferring resyncing cidOk cid paramOk).2 = false ∧
      (HandlerResync transferring resyncing tickOk paramOk).2 = false) ∧
    (transferring.any (fun b => b) = true ∨ resyncing = true →
      (HandlerResync transferring resyncing tickOk paramOk).2 = false) := by
  refine ⟨fun h => ⟨?_, ?_⟩, fun h => ?_, fun h => ⟨?_, ?_, ?_, ?_⟩, fun h => ?_⟩ <;>
    first
      | (simp only [HandlerRebalance]; split_ifs <;> simp_all)
      | (simp only [HandlerCleanup]; split_ifs <;> simp_all)
      | (simp only [HandlerRecovery]; split_ifs <;> simp_all)
      | (simp only [HandlerResync]; split_ifs <;> simp_all)

/-- Witness for C4 at concrete inputs: with circle 0 transferring, rebalance
and cleanup do not launch; with resyncing set, resync does not launch. -/
theorem c4_operator_admission_witness :
    (HandlerRebalance [true] false true 0 "add" true true).2 = false ∧
    (HandlerCleanup [true] false true 0 true).2 = false ∧
    (HandlerResync [false] true true true).2 = false :=
  ⟨((c4_operator_admission [true] false true 0 "add" true true true true 0 0 true).1 rfl).1,
   ((c4_operator_admission [true] false true 0 "add" true true true true 0 0 true).1 rfl).2,
   (c4_operator_admission [false] true true 0 "add" true true true true 0 0 true).2.2.2
     (Or.inr rfl)⟩

/-- C5 counterexample: the write handler of `service/http.go` accepts a write
for database `_internal` with 204 when the allow-list is empty, although
`IsForbiddenDB` classifies `_internal` as forbidden — the claim that every
write request for `_internal` is rejected regardless of the allow-list is
false. -/
theorem c5_internal_write_counterexample :
    HandlerWriteHttp true true "ns" "_internal" [] false true true = 204 ∧
    IsForbiddenDB [] "_internal" = true := by
  exact ⟨rfl, rfl⟩

/-- C5 amended: `IsForbiddenDB db` holds iff `db = "_internal"` or the
allow-list is non-empty and lacks `db`; in particular `_internal` is always
forbidden, and the proxy.go service write handler (which consults
`IsForbiddenDB` through `queryDB`) rejects any forbidden database with 400.
The `service/http.go` write handler, however, checks only for an empty
database or absence from a non-empty allow-list, so it accepts `_internal`
(with 204) whenever the allow-list is empty or contains it. -/
theorem c5_forbidden_db (dbSet dbList : List String) (db precision : String)
    (gzipOk bodyOk : Bool) :
    (IsForbiddenDB dbSet db = true ↔
      db = "_internal" ∨ (dbSet ≠ [] ∧ dbSet.contains db = false)) ∧
    IsForbiddenDB dbSet "_internal" = true ∧
    (validPrecision precision = true → IsForbiddenDB dbSet db = true →
      HandlerWriteProxy true true precision db dbSet gzipOk bodyOk = 400) ∧
    (db ≠ "" → (dbList.isEmpty || dbList.contains db) = true →
      HandlerWriteHttp true true precision db dbList false true true = 204) := by
  refine ⟨?_, ?_, fun hp hf => ?_, fun hdb hl => ?_⟩
  · simp [IsForbiddenDB, List.isEmpty_iff]
  · simp [IsForbiddenDB]
  · simp [HandlerWriteProxy, queryDBErr, hp, hf]
  · rcases Bool.or_eq_true_iff.mp hl with h | h <;>
      simp_all [HandlerWriteHttp]

/-- Witness for C5 amended at concrete inputs: `_internal` is forbidden under
an empty allow-list, and the proxy.go service handler rejects it with 400. -/
theorem c5_forbidden_db_witness :
    IsForbiddenDB [] "_internal" = true ∧
    HandlerWriteProxy true true "ns" "_internal" [] true true = 400 ∧
    HandlerWriteHttp true true "ns" "_internal" [] false true true = 204 :=
  ⟨(c5_forbidden_db [] [] "_internal" "ns" true true).2.1,
   (c5_forbidden_db [] [] "_internal" "ns" true true).2.2.1 rfl rfl,
   (c5_forbidden_db [] [] "_internal" "ns" true true).2.2.2 (by decide) rfl⟩

/-- C8 counterexample: the write handler of `service/http.go` does not
validate the precision parameter — a request with precision `"xyz"` (outside
the allowed set) is accepted with 204, not rejected with 400. -/
theorem c8_precision_counterexample :
    HandlerWriteHttp true true "xyz" "db1" [] false true true = 204 ∧
    validPrecision "xyz" = false := by
  exact ⟨rfl, rfl⟩

/-- C8 amended: the write handler of the proxy.go service section yields 400
for a precision outside the allowed set or a malformed/forbidden db and 204
on accept; the write handler of `service/http.go` performs no precision
validation — it yields 400 on an empty or allow-list-forbidden db, and 204 on
accept for any precision string whatsoever. -/
theorem c8_write_endpoint_status (precision db : String) (dbSet dbList : List String)
    (gzipOk bodyOk : Bool) :
    (validPrecision precision = false →
      HandlerWriteProxy true true precision db dbSet gzipOk bodyOk = 400) ∧
    (queryDBErr dbSet db = true →
      HandlerWriteProxy true true precision db dbSet gzipOk bodyOk = 400) ∧
    (validPrecision precision = true → queryDBErr dbSet db = false →
      HandlerWriteProxy true true precision db dbSet true true = 204) ∧
    ((db = "" ∨ (dbList ≠ [] ∧ dbList.contains db = false)) →
      HandlerWriteHttp true true precision db dbList false true bodyOk = 400) ∧
    (db ≠ "" → (dbList.isEmpty || dbList.contains db) = true →
      HandlerWriteHttp true true precision db dbList false true true = 204) := by
  refine ⟨fun hp => ?_, fun hq => ?_, fun hp hq => ?_, fun h => ?_, fun hdb hl => ?_⟩
  · simp [HandlerWriteProxy, hp]
  · simp only [HandlerWriteProxy]
    split_ifs <;> simp_all
  · simp [HandlerWriteProxy, hp, hq]
  · rcases h with h | ⟨h1, h2⟩ <;> simp_all [HandlerWriteHttp, List.isEmpty_iff]
  · rcases Bool.or_eq_true_iff.mp hl with h | h <;>
      simp_all [HandlerWriteHttp]

/-- Witness for C8 amended at concrete inputs: the proxy.go service handler
rejects a bad precision with 400 and accepts a valid request with 204; the
`service/http.go` handler accepts an arbitrary precision with 204. -/
theorem c8_write_endpoint_status_witness :
    HandlerWriteProxy true true "xyz" "db1" [] true true = 400 ∧
    HandlerWriteProxy true true "ns" "db1" [] true true = 204 ∧
    HandlerWriteHttp true true "whatever" "db1" [] false true true = 204 :=
  ⟨(c8_write_endpoint_status "xyz" "db1" [] [] true true).1 rfl,
   (c8_write_endpoint_status "ns" "db1" [] [] true true).2.2.1 rfl rfl,
   (c8_write_endpoint_status "whatever" "db1" [] [] true true).2.2.2.2 (by decide) rfl⟩

/-- C9 counterexample: an admission request with `limit=0` is rejected —
`setLimit` classifies `"0"` as `ErrInvalidLimit` and the rebalance admission
responds 400 without launching the job, for any defaults. -/
theorem c9_limit_zero_counterexample :
    setLimit 30000 "0" = none ∧
    RebalanceAdmit [false] false true 0 "add" true 1 25000 30000
      (fun _ => true) "" "" "0" [] = (400, false) := by
  exact ⟨rfl, rfl⟩

/-- C9 amended: a `limit` field that parses to a non-positive integer (in
particular `0`) is rejected with `ErrInvalidLimit` and the admission request
is refused without launching; a present `limit` must be a positive integer;
an absent `limit` (and `worker`, `batch`) takes the default at admission
time. -/
theorem c9_limit_admission (dflt : Int) (s : String) (v : Int)
    (transferring : List Bool) (resyncing cidOk : Bool) (cid : Nat)
    (op : String) (bodyOk : Bool) (dW dB dL : Int) (validAddr : String → Bool)
    (workerF batchF limitF : String) (haAddrs : List String) :
    (trimSpace s = "" → setLimit dflt s = some dflt ∧
      setWorker dflt s = some dflt ∧ setBatch dflt s = some dflt) ∧
    (atoi (trimSpace s) = some v → v ≤ 0 → setLimit dflt s = none) ∧
    (atoi (trimSpace s) = some v → 0 < v → setLimit dflt s = some v) ∧
    (setLimit dL limitF = none →
      (RebalanceAdmit transferring resyncing cidOk cid op bodyOk dW dB dL
        validAddr workerF batchF limitF haAddrs).2 = false) := by
  refine ⟨fun h => ?_, fun h hv => ?_, fun h hv => ?_, fun h => ?_⟩
  · simp [setLimit, setWorker, setBatch, h]
  · have hne : trimSpace s ≠ "" := by
      intro he
      rw [he] at h
      simp [atoi] at h
    simp [setLimit, hne, h, hv]
  · have hne : trimSpace s ≠ "" := by
      intro he
      rw [he] at h
      simp [atoi] at h
    simp [setLimit, hne, h, not_le.mpr hv]
  · have hp : setParam dW dB dL validAddr workerF batchF limitF haAddrs = false := by
      simp [setParam, h]
    simp only [RebalanceAdmit, HandlerRebalance, hp]
    split_ifs <;> simp_all

/-- Witness for C9 amended at concrete inputs: `limit=0` yields
`ErrInvalidLimit`, an absent limit takes the default, and the admission with
`limit=0` does not launch. -/
theorem c9_limit_admission_witness :
    setLimit 30000 "0" = none ∧
    setLimit 30000 "" = some 30000 ∧
    (RebalanceAdmit [false] false true 0 "add" true 1 25000 30000
      (fun _ => true) "" "" "0" []).2 = false :=
  ⟨(c9_limit_admission 30000 "0" 0 [] false true 0 "add" true 1 25000 30000
      (fun _ => true) "" "" "0" []).2.1 rfl (by decide),
   ((c9_limit_admission 30000 "" 0 [] false true 0 "add" true 1 25000 30000
      (fun _ => true) "" "" "" []).1 rfl).1,
   (c9_limit_admission 30000 "0" 0 [] false true 0 "add" true 1 25000 30000
      (fun _ => true) "" "" "0" []).2.2.2
     ((c9_limit_admission 30000 "0" 0 [] false true 0 "add" true 1 25000 30000
      (fun _ => true) "" "" "0" []).2.1 rfl (by decide))⟩

/-- C2 counterexample: with data pending, an active backend, a well-formed
record and a Transient `WriteCompressed` result, a successful `RollbackMeta`
makes `Rewrite` return nil, so the loop continues immediately WITHOUT
sleeping — the claim that on Transient the loop sleeps `rewriteInterval`
before continuing is false. -/
theorem c2_transient_no_sleep_counterexample :
    RewriteLoopStep true true (.record [97, 32, 5]) .transient true true =
      .continueNoSleep [.writeCompressed [97] [5], .rollbackMeta] := by
  decide

/-- C2 amended: while the FileQueue has data, an inactive backend sleeps and
continues; otherwise the record is read, split on the first space, and
`WriteCompressed` is called; on ok/BadRequest/NotFound `UpdateMeta` drops the
record, on Transient `RollbackMeta` runs; the loop sleeps exactly when
`Rewrite` returns a non-nil error — on Transient that error is
`RollbackMeta`'s result, so with a successful rollback the loop retries
immediately without sleeping; when the loop exits, `rewriteRunning` is set to
false. -/
theorem c2_rewrite_loop (hasData active : Bool) (read : ReadResult)
    (b p0 p1 db r : List Nat) (rest : List (List Nat)) (wres : WriteResult)
    (rollbackOk updateOk : Bool) (wf : List Nat → WriteResult) (fuel : Nat)
    (q0 q1 : List Nat) :
    (hasData = false →
      RewriteLoopStep hasData active read wres rollbackOk updateOk = .exitLoop) ∧
    (hasData = true → active = false →
      RewriteLoopStep hasData active read wres rollbackOk updateOk =
        .sleepContinue []) ∧
    (read = .record b → splitFirstSpace b = some (p0, p1) →
      QueryUnescape p0 = some db →
      ((wres = .ok ∨ wres = .badRequest ∨ wres = .notFound →
        Rewrite read wres rollbackOk updateOk =
          ([.writeCompressed db p1, .updateMeta], !updateOk)) ∧
      (wres = .transient →
        Rewrite read wres rollbackOk updateOk =
          ([.writeCompressed db p1, .rollbackMeta], !rollbackOk)))) ∧
    (hasData = true → active = true →
      RewriteLoopStep hasData active read wres rollbackOk updateOk =
        if (Rewrite read wres rollbackOk updateOk).2 = true then
          .sleepContinue (Rewrite read wres rollbackOk updateOk).1
        else .continueNoSleep (Rewrite read wres rollbackOk updateOk).1) ∧
    ((RewriteLoopRun active wf (fuel + 1) []).2 = false) ∧
    (active = true → splitFirstSpace r = some (q0, q1) →
      (wf r = .ok ∨ wf r = .badRequest ∨ wf r = .notFound) →
      RewriteLoopRun active wf (fuel + 1) (r :: rest) =
        RewriteLoopRun active wf fuel rest) := by
  refine ⟨fun h => ?_, fun h1 h2 => ?_, fun hr hs hu => ⟨fun hw => ?_, fun hw => ?_⟩,
    fun h1 h2 => ?_, ?_, fun h1 hs hw => ?_⟩
  · simp [RewriteLoopStep, h]
  · simp [RewriteLoopStep, h1, h2]
  · subst hr
    rcases hw with hw | hw | hw <;> subst hw <;> simp [Rewrite, hs, hu]
  · subst hr; subst hw
    simp [Rewrite, hs, hu]
  · rcases hR : Rewrite read wres rollbackOk updateOk with ⟨acts, e⟩
    cases e <;> simp [RewriteLoopStep, h1, h2, hR]
  · simp [RewriteLoopRun]
  · rcases hw with hw | hw | hw <;>
      simp [RewriteLoopRun, h1, hs, hw]

/-- Witness for C2 amended at concrete inputs: a Transient result with a
successful rollback performs `RollbackMeta` and returns a nil error, and a
drained queue exits the loop with `rewriteRunning = false`. -/
theorem c2_rewrite_loop_witness :
    Rewrite (.record [97, 32, 5]) .transient true true =
      ([.writeCompressed [97] [5], .rollbackMeta], false) ∧
    (RewriteLoopRun true (fun _ => .ok) 1 []).2 = false :=
  ⟨((c2_rewrite_loop true true (.record [97, 32, 5]) [97, 32, 5] [97] [5] [97]
      [] [] .transient true true (fun _ => .ok) 0 [] []).2.2.1 rfl (by decide)
      (by decide)).2 rfl,
   (c2_rewrite_loop true true (.record [97, 32, 5]) [97, 32, 5] [97] [5] [97]
      [] [] .transient true true (fun _ => .ok) 0 [] []).2.2.2.2.1⟩

/-- C3: when a Backend's input channel is closed, the worker flushes every
buffered database, waits for all in-flight pool tasks, then closes the
HttpClient and the FileQueue: afterwards no task is in flight, both resources
are closed, every buffer is detached or empty, the action trace is flush
submissions followed by the wait and the two closes, and every non-empty
buffer's payload was submitted. -/
theorem c3_closed_backend (s : WorkerState) :
    ((workerClosed s).2.inflight = 0 ∧ (workerClosed s).2.pendingTasks = [] ∧
      (workerClosed s).2.httpOpen = false ∧ (workerClosed s).2.fileOpen = false) ∧
    (∀ e ∈ (workerClosed s).2.buffers,
      (e : String × CacheBuffer).2.buffer = none ∨ e.2.counter = 0) ∧
    (∃ submits, (workerClosed s).1 =
        submits ++ [.waitPool, .closeHttp, .closeFile] ∧
      ∀ a ∈ submits, ∃ db payload, a = WAction.submitFlush db payload) ∧
    (∀ db cb payload, (db, cb) ∈ s.buffers → 0 < cb.counter →
      cb.buffer = some payload → payload ≠ [] →
      WAction.submitFlush db payload ∈ (workerClosed s).1) := by
  refine ⟨⟨rfl, rfl, rfl, rfl⟩, ?_, ?_, ?_⟩
  · intro e he
    simp only [workerClosed, Flush, List.mem_map] at he
    obtain ⟨x, hx, rfl⟩ := he
    obtain ⟨a, _, rfl⟩ := hx
    by_cases h : 0 < a.2.counter
    · simp only [flushEntry, if_pos h]
      rcases hb : a.2.buffer with _ | p
      · simp [FlushBuffer, hb]
      · simp [FlushBuffer, hb]
    · simp only [flushEntry, if_neg h]
      right
      omega
  · refine ⟨((s.buffers.map flushEntry).filterMap (fun x => x.2)).map
      (fun t => WAction.submitFlush t.1 t.2), ?_, ?_⟩
    · rfl
    intro a ha
    obtain ⟨t, _, rfl⟩ := List.mem_map.mp ha
    exact ⟨t.1, t.2, rfl⟩
  · intro db cb payload hmem hc hb hp
    simp only [workerClosed]
    refine List.mem_append_left _ ?_
    refine List.mem_map.mpr ⟨(db, payload), ?_, rfl⟩
    refine List.mem_filterMap.mpr ⟨flushEntry (db, cb), List.mem_map_of_mem _ hmem, ?_⟩
    simp [flushEntry, hc, FlushBuffer, hb, List.isEmpty_iff, hp]

/-- Witness for C3 at a concrete state: a backend with one non-empty buffer
submits that buffer's payload before waiting and closing. -/
theorem c3_closed_backend_witness :
    WAction.submitFlush "db1" [1] ∈
      (workerClosed ⟨[("db1", ⟨some [1], 2⟩)], true, 0, [], true, true⟩).1 :=
  (c3_closed_backend ⟨[("db1", ⟨some [1], 2⟩)], true, 0, [], true, true⟩).2.2.2
    "db1" ⟨some [1], 2⟩ [1] (by simp) (by decide) rfl (by decide)

/-- Looking up a key right after updating it yields the new buffer. -/
theorem getBuf_setBuf (bs : List (String × CacheBuffer)) (db : String)
    (cb : CacheBuffer) : getBuf (setBuf bs db cb) db = some cb := by
  simp [getBuf, setBuf]

/-- C6: for every `LinePoint` consumed by the worker with a non-empty line,
`WriteBuffer` appends the line to `buffers[db]` (plus a trailing newline when
the line lacks one) and bumps the counter; then, when the counter reaches
`flushSize`, that database's buffer is flushed (detached, submitted to the
pool) with the timer untouched, and otherwise the buffer keeps the appended
content and a flush timer is armed when none was. -/
theorem c6_write_buffer (flushSize : Nat) (s : BufState) (db : String)
    (line : List Nat) (s' : BufState) (task : Option (List Nat))
    (hline : line ≠ [])
    (heq : WriteBuffer flushSize s db line = some (s', task)) :
    (flushSize ≤ ((getBuf s.buffers db).getD ⟨some [], 0⟩).counter + 1 →
      task = some (((getBuf s.buffers db).getD ⟨some [], 0⟩).buffer.getD [] ++
          line ++ (if line.getLast? = some 10 then [] else [10])) ∧
      getBuf s'.buffers db = some ⟨none, 0⟩ ∧
      s'.timerArmed = s.timerArmed) ∧
    (((getBuf s.buffers db).getD ⟨some [], 0⟩).counter + 1 < flushSize →
      task = none ∧
      getBuf s'.buffers db =
        some ⟨some (((getBuf s.buffers db).getD ⟨some [], 0⟩).buffer.getD [] ++
          line ++ (if line.getLast? = some 10 then [] else [10])),
          ((getBuf s.buffers db).getD ⟨some [], 0⟩).counter + 1⟩ ∧
      s'.timerArmed = true) := by
  obtain ⟨c, hc⟩ : ∃ c, line.getLast? = some c := by
    cases hl : line.getLast? with
    | none => exact absurd (List.getLast?_eq_none_iff.mp hl) hline
    | some c => exact ⟨c, rfl⟩
  have hcontent : (if c = 10 then ((getBuf s.buffers db).getD ⟨some [], 0⟩).buffer.getD [] ++ line
      else ((getBuf s.buffers db).getD ⟨some [], 0⟩).buffer.getD [] ++ line ++ [10]) =
      ((getBuf s.buffers db).getD ⟨some [], 0⟩).buffer.getD [] ++ line ++
        (if line.getLast? = some 10 then [] else [10]) := by
    rw [hc]
    by_cases h10 : c = 10 <;> simp [h10]
  have hne : ((getBuf s.buffers db).getD ⟨some [], 0⟩).buffer.getD [] ++ line ++
      (if line.getLast? = some 10 then [] else [10]) ≠ [] := by
    intro habs
    rcases List.append_eq_nil.mp (List.append_eq_nil.mp habs).1 with ⟨-, h2⟩
    exact hline h2
  rw [WriteBuffer, hc] at heq
  simp only [hcontent] at heq
  by_cases hflush : ((getBuf s.buffers db).getD ⟨some [], 0⟩).counter + 1 ≥ flushSize
  · rw [if_pos hflush] at heq
    simp only [FlushBuffer] at heq
    rw [if_neg (by simpa [List.isEmpty_iff] using hne)] at heq
    obtain ⟨hs', ht⟩ := Prod.mk.injEq .. ▸ (Option.some.injEq .. ▸ heq)
    refine ⟨fun _ => ⟨ht.symm, ?_, ?_⟩, fun hlt => absurd hflush (by omega)⟩
    · rw [← hs']
      exact getBuf_setBuf ..
    · rw [← hs']
  · rw [if_neg hflush] at heq
    refine ⟨fun hge => absurd hge (by omega), fun _ => ?_⟩
    by_cases htimer : s.timerArmed = true
    · rw [htimer] at heq
      rw [if_neg (by decide)] at heq
      obtain ⟨hs', ht⟩ := Prod.mk.injEq .. ▸ (Option.some.injEq .. ▸ heq)
      refine ⟨ht.symm, ?_, ?_⟩
      · rw [← hs']
        exact getBuf_setBuf ..
      · rw [← hs']
    · have htimer2 : s.timerArmed = false := by
        cases h : s.timerArmed
        · rfl
        · exact absurd h htimer
      rw [htimer2] at heq
      rw [if_pos (by decide)] at heq
      obtain ⟨hs', ht⟩ := Prod.mk.injEq .. ▸ (Option.some.injEq .. ▸ heq)
      refine ⟨ht.symm, ?_, ?_⟩
      · rw [← hs']
        exact getBuf_setBuf ..
      · rw [← hs']

/-- Witness for C6 at concrete inputs: writing the single byte `99` into an
empty backend with `flushSize = 2` stores `[99, 10]` with counter 1, arms the
timer and submits no flush. -/
theorem c6_write_buffer_witness :
    (none : Option (List Nat)) = none ∧
    getBuf [("db1", (⟨some [99, 10], 1⟩ : CacheBuffer))] "db1" =
      some ⟨some [99, 10], 1⟩ ∧
    (true : Bool) = true :=
  (c6_write_buffer 2 ⟨[], false⟩ "db1" [99] ⟨[("db1", ⟨some [99, 10], 1⟩)], true⟩
    none (by decide) rfl).2 (by decide)

/-- C7: `Proxy.Write` splits the payload on newline, trims each line and
skips empty ones; each surviving line gets a nanosecond timestamp appended
when it lacks one, its measurement forms `key = db + "," + meas`, and the
point is written to the ring-assigned backend of every replica group; a line
failing the measurement scan or the rapid format check contributes nothing;
every performed write comes from some surviving line; and the call returns
success (a nil error). -/
theorem c7_proxy_write (scanKey : String → Option String)
    (rapidCheck : String → Bool) (circles : List (String → Nat))
    (ts payload db rp line meas : String) (i : Nat) (hi : i < circles.length) :
    ((ProxyWrite scanKey rapidCheck circles ts payload db rp).2 = none) ∧
    (hasTimestamp line = false → AppendNano ts line = line ++ " " ++ ts) ∧
    (hasTimestamp line = true → AppendNano ts line = line) ∧
    (scanKey (AppendNano ts line) = none →
      WriteRow scanKey rapidCheck circles ts line db rp = []) ∧
    (scanKey (AppendNano ts line) = some meas →
      rapidCheck ((AppendNano ts line).drop meas.length) = false →
      WriteRow scanKey rapidCheck circles ts line db rp = []) ∧
    (scanKey (AppendNano ts line) = some meas →
      rapidCheck ((AppendNano ts line).drop meas.length) = true →
      line ∈ (splitLines payload).map trimSpace → line ≠ "" →
      (circles.get ⟨i, hi⟩ (GetKey db meas),
        (⟨db, rp, AppendNano ts line⟩ : LinePoint)) ∈
        (ProxyWrite scanKey rapidCheck circles ts payload db rp).1) ∧
    (∀ w ∈ (ProxyWrite scanKey rapidCheck circles ts payload db rp).1,
      ∃ l, l ∈ ((splitLines payload).map trimSpace).filter
          (fun x => !x.isEmpty) ∧
        w ∈ WriteRow scanKey rapidCheck circles ts l db rp) := by
  refine ⟨rfl, fun h => ?_, fun h => ?_, fun h => ?_, fun h1 h2 => ?_,
    fun h1 h2 h3 h4 => ?_, fun w hw => ?_⟩
  · simp [AppendNano, h]
  · simp [AppendNano, h]
  · simp [WriteRow, h]
  · simp [WriteRow, h1, h2]
  · have hie : line.isEmpty = false := by
      cases hb : line.isEmpty
      · rfl
      · exact absurd ((String.isEmpty_iff line).mp hb) h4
    have hf : line ∈ ((splitLines payload).map trimSpace).filter
        (fun x => !x.isEmpty) := by
      refine List.mem_filter.mpr ⟨h3, ?_⟩
      simp [hie]
    simp only [ProxyWrite]
    refine List.mem_flatten.mpr ⟨WriteRow scanKey rapidCheck circles ts line db rp,
      List.mem_map_of_mem _ hf, ?_⟩
    have hwr : WriteRow scanKey rapidCheck circles ts line db rp =
        circles.map (fun ring =>
          (ring (GetKey db meas), ⟨db, rp, AppendNano ts line⟩)) := by
      simp [WriteRow, h1, h2]
    rw [hwr]
    exact List.mem_map_of_mem _ (circles.get_mem i hi)
  · simp only [ProxyWrite] at hw
    obtain ⟨lst, hlst, hwl⟩ := List.mem_flatten.mp hw
    obtain ⟨l, hl, rfl⟩ := List.mem_map.mp hlst
    exact ⟨l, hl, hwl⟩

/-- Witness for C7 at concrete inputs: the line `cpu v=1` in a one-circle
proxy gets the timestamp `1` appended and is written to the ring-assigned
backend under key `db1,cpu`. -/
theorem c7_proxy_write_witness :
    ((0 : Nat), (⟨"db1", "rp", "cpu v=1 1"⟩ : LinePoint)) ∈
      (ProxyWrite (fun _ => some "cpu") (fun _ => true) [fun _ => 0] "1"
        "cpu v=1" "db1" "rp").1 := by
  have h := (c7_proxy_write (fun _ => some "cpu") (fun _ => true) [fun _ => 0]
      "1" "cpu v=1" "db1" "rp" "cpu v=1" "cpu" 0 (by decide)).2.2.2.2.2.1
    rfl rfl (by decide) (by decide)
  exact h

end InfluxProxy
